import Mathlib

/-
  Verification of the store layer of `mobx-openapi-stores`.

  Shallow embedding of the source files
    src/stores/LoadingStore.ts, ApiStore.ts, SingleStore.ts,
    CollectionStore.ts, CrudCollectionStore.ts, ObjectStore.ts,
    src/utils/api/apiCall.ts, getErrorMessage.ts, handleError.ts.

  Entities are JavaScript objects with an `id` property (number | string,
  compared with ===) and further enumerable own properties, modelled as an
  ordered association list of (key, value) pairs with first-match lookup.
  The MobX reactivity layer (makeObservable, computed, flow) only wraps the
  plain state transitions modelled here and is not part of the embedding.
-/

namespace MobxStores

/-- JS identity values: `id: number | string`, compared with strict equality. -/
inductive EntityId where
  | num (n : Int)
  | str (s : String)
deriving DecidableEq, Repr

/-- An entity: a stable `id` plus its other own enumerable properties,
in insertion order.  Property values are modelled as strings. -/
structure Entity where
  id : EntityId
  fields : List (String × String)
deriving DecidableEq, Repr

/-- Reading an own property of a JS object modelled as an association list
(first binding wins; JS objects have unique keys, so duplicates never occur
in states that model real objects). -/
def getField (props : List (String × String)) (key : String) : Option String :=
  (props.find? (fun p => p.1 == key)).map (·.2)

/-- lodash `assign(target, source)` restricted to the non-`id` properties:
every own key of `source` overwrites or is appended to `target`; keys already
present in `target` keep their position, fresh keys of `source` are appended
in `source` order. -/
def assignFields (target source : List (String × String)) : List (String × String) :=
  target.map (fun p => (p.1, (getField source p.1).getD p.2))
    ++ source.filter (fun p => (getField target p.1).isNone)

/-- lodash `assign(target, source)` on two entities: `source`'s own properties
(including `id`) are copied onto `target`. -/
def assignEntity (target source : Entity) : Entity :=
  { id := source.id, fields := assignFields target.fields source.fields }

/-! ### Error values and `getErrorMessage` / `handleError` (src/utils/api) -/

/-- JS values that can appear as a thrown/rejected error.
`errObj message` is an `Error` instance (its `.message`); `respObj message` is
an object exposing a `response` whose retrievable JSON body carries the given
`message` field (the generated client's `ResponseError`, an `Error` subclass);
`plainObj json` is any other truthy object, carrying its `JSON.stringify`. -/
inductive ErrVal where
  | undef
  | nullv
  | num (n : Int)
  | str (s : String)
  | boolv (b : Bool)
  | errObj (message : String)
  | respObj (message : String)
  | plainObj (json : String)
deriving DecidableEq, Repr

/-- Whether the value is a JS object (the `in` operator only works on objects). -/
def ErrVal.isObject : ErrVal → Bool
  | .errObj _ => true
  | .respObj _ => true
  | .plainObj _ => true
  | _ => false

/-- Whether the object has a `response` property (`'response' in error`). -/
def ErrVal.hasResponse : ErrVal → Bool
  | .respObj _ => true
  | _ => false

/-- `error instanceof Error`. -/
def ErrVal.isErrorInstance : ErrVal → Bool
  | .errObj _ => true
  | .respObj _ => true
  | _ => false

/-- JS truthiness of an error value (`!error` is the negation). -/
def ErrVal.isTruthy : ErrVal → Bool
  | .undef => false
  | .nullv => false
  | .num n => !(n == 0)
  | .str s => !(s == "")
  | .boolv b => b
  | _ => true

/-- `JSON.stringify` on a string value: wrap in quotes, escaping quote and
backslash characters. -/
def jsonStringifyString (s : String) : String :=
  "\"" ++ String.join (s.toList.map (fun c =>
    if c == '"' || c == '\\' then "\\" ++ String.singleton c
    else String.singleton c)) ++ "\""

/-- `JSON.stringify(error)` for the values that reach the final fallback
branch (truthy objects that are neither `Error` instances nor expose
a `response`). -/
def jsonStringifyErr : ErrVal → String
  | .plainObj json => json
  | .str s => jsonStringifyString s
  | .num n => toString n
  | .boolv b => toString b
  | _ => ""

/-- src/utils/api/getErrorMessage.ts.

```
if ('response' in error) {
  return await (error as ResponseError).response
    ?.json().then((json) => JSON.stringify(json.message));
} else if (error instanceof Error) {
  return error.message;
} else if (!error) return defaultMessage;
return JSON.stringify(error);
```

`'response' in error` is evaluated first; when `error` is not an object
(null, undefined, or any other primitive) the `in` operator itself raises a
`TypeError`, so the later branches are never reached for those values.  The
raised `TypeError` (an `Error` instance) is the `Except.error` payload. -/
def getErrorMessage (error : ErrVal) (defaultMessage : String) : Except ErrVal String :=
  if !error.isObject then
    .error (.errObj "Cannot use 'in' operator to search for 'response' in error")
  else if error.hasResponse then
    match error with
    | .respObj message => .ok (jsonStringifyString message)
    | _ => .ok defaultMessage
  else if error.isErrorInstance then
    match error with
    | .errObj message => .ok message
    | _ => .ok defaultMessage
  else if !error.isTruthy then
    .ok defaultMessage
  else
    .ok (jsonStringifyErr error)

/-- src/utils/api/handleError.ts: extract a message with `getErrorMessage`
(at its default message argument), log it, and throw `new Error(msg)`.
The value returned here is the error that `handleError` throws; when
`getErrorMessage` itself raised, that `TypeError` propagates instead.
(The `console.error` diagnostic log is a side effect outside the state.) -/
def handleError (err : ErrVal) : ErrVal :=
  match getErrorMessage err "Unbekannter Fehler" with
  | .ok msg => .errObj msg
  | .error crash => crash

/-! ### The API client capability and `callApi` (src/utils/api/apiCall.ts) -/

/-- Behaviour of one named endpoint of the generated client when invoked:
it either resolves (possibly with no value, i.e. undefined) or rejects.
`α` is the result type the calling store casts the value to
(`as unknown as TSingle` / `as unknown as TCollection`). -/
inductive EndpointBehavior (α : Type) where
  | resolves (value : Option α)
  | rejects (err : ErrVal)
deriving DecidableEq, Repr

/-- The API client: named asynchronous endpoint methods. -/
abbrev Api (α : Type) := List (String × EndpointBehavior α)

/-- Dynamic endpoint lookup `api[apiCall]` by string key. -/
def lookupEndpoint {α : Type} (api : Api α) (endpointName : String) :
    Option (EndpointBehavior α) :=
  (api.find? (fun p => p.1 == endpointName)).map (·.2)

/-- src/utils/api/apiCall.ts `callApi`:

```
try {
  if (!api) throw new Error('No Api provided');
  return (await api[apiCall](args)) as ReturnType<Api[Endpoint]>;
} catch (err) {
  await handleError(err);
}
```

Returns the outcome together with the number of endpoint invocations.
When the endpoint name is absent, `api[apiCall]` is undefined and invoking it
raises a `TypeError`, which the catch block normalizes like any other error. -/
def callApi {α : Type} (endpointName : String) (api : Option (Api α)) :
    Except ErrVal (Option α) × Nat :=
  match api with
  | none => (.error (handleError (.errObj "No Api provided")), 0)
  | some a =>
    match lookupEndpoint a endpointName with
    | none => (.error (handleError (.errObj "api[apiCall] is not a function")), 0)
    | some (.resolves value) => (.ok value, 1)
    | some (.rejects e) => (.error (handleError e), 1)

/-- Decidable equality for `Except`, so concrete call outcomes can be
evaluated by `decide`. -/
instance {ε α : Type} [DecidableEq ε] [DecidableEq α] : DecidableEq (Except ε α)
  | .ok a, .ok b =>
    if h : a = b then .isTrue (by rw [h])
    else .isFalse (by intro hh; cases hh; exact h rfl)
  | .ok _, .error _ => .isFalse (by intro h; cases h)
  | .error _, .ok _ => .isFalse (by intro h; cases h)
  | .error e, .error f =>
    if h : e = f then .isTrue (by rw [h])
    else .isFalse (by intro hh; cases hh; exact h rfl)

/-! ### Store state and constructors (LoadingStore / ApiStore / SingleStore /
CollectionStore / CrudCollectionStore) -/

/-- src/stores/LoadingStore.ts: a single boolean flag. -/
structure LoadingStoreState where
  isLoading : Bool
deriving DecidableEq, Repr

/-- `new LoadingStore()`: the field initializer is `_isLoading = false` and the
constructor only calls `makeObservable`. -/
def loadingStoreNew : LoadingStoreState :=
  { isLoading := false }

/-- The state of an ApiStore and of every store layered on it down to
CrudCollectionStore, flattened: `name` and the nullable client handle `api`
from ApiStore, `isLoading` inherited from LoadingStore, `_current` from
SingleStore and `_collection` from CollectionStore (both sit at their field
initializers `null` / `[]` for instances of the shallower classes).
`α` is the result type of the endpoints as used by the calling code. -/
structure StoreState (α : Type) where
  name : String
  isLoading : Bool
  api : Option (Api α)
  current : Option Entity
  collection : List Entity
deriving DecidableEq, Repr

/-- `new ApiStore(name)`: `api = null`, and the constructor runs
`this.setIsLoading(true)` after `super()`. -/
def apiStoreNew (α : Type) (name : String) : StoreState α :=
  { name := name, isLoading := true, api := none, current := none, collection := [] }

/-- `new SingleStore(name)`: calls `super(name)` and initializes `_current = null`. -/
def singleStoreNew (α : Type) (name : String) : StoreState α :=
  apiStoreNew α name

/-- `new CollectionStore(name)`: calls `super(name)` and initializes `_collection = []`. -/
def collectionStoreNew (α : Type) (name : String) : StoreState α :=
  singleStoreNew α name

/-- `new CrudCollectionStore(name)`: calls `super(name)`; adds no state. -/
def crudCollectionStoreNew (α : Type) (name : String) : StoreState α :=
  collectionStoreNew α name

/-! ### SingleStore / CollectionStore mutation primitives -/

/-- SingleStore `setCurrent`: unconditional assignment. -/
def setCurrent {α : Type} (s : StoreState α) (newCurrent : Option Entity) : StoreState α :=
  { s with current := newCurrent }

/-- CollectionStore `setCollection`: replaces the whole collection. -/
def setCollection {α : Type} (s : StoreState α) (newCollection : List Entity) : StoreState α :=
  { s with collection := newCollection }

/-- `this.current?.id === id`: false when `current` is null (optional chaining
yields undefined, and `undefined === id` is false for every identity). -/
def currentIdMatches {α : Type} (s : StoreState α) (i : EntityId) : Bool :=
  match s.current with
  | some c => c.id == i
  | none => false

/-- CollectionStore `addItem(newItem, setCurrent = true)`: optionally set
`current`, then push onto the end of the collection. -/
def addItem {α : Type} (s : StoreState α) (newItem : Entity) (setCur : Bool) : StoreState α :=
  let s1 := if setCur then setCurrent s (some newItem) else s
  { s1 with collection := s1.collection ++ [newItem] }

/-- CollectionStore `getById(id)`:

```
if (this.current?.id === id) return this.current;
return find(this.collection, (item) => item.id === id);
```
-/
def getById {α : Type} (s : StoreState α) (i : EntityId) : Option Entity :=
  if currentIdMatches s i then s.current
  else s.collection.find? (fun item => item.id == i)

/-- CollectionStore `removeItem(id)`:

```
if (this.current?.id === id) this.setCurrent(null);
remove(this._collection, (item) => item.id === id);
```

lodash `remove` deletes every element the predicate accepts. -/
def removeItem {α : Type} (s : StoreState α) (i : EntityId) : StoreState α :=
  let s1 := if currentIdMatches s i then setCurrent s none else s
  { s1 with collection := s1.collection.filter (fun item => !(item.id == i)) }

/-- CollectionStore `editItem(updatedItem, setCurrent = true)`:

```
if (setCurrent || this.current?.id === updatedItem.id) assign(this._current, updatedItem);
this.setCollection(map(this._collection, (item) =>
  item.id === updatedItem.id ? assign(item, updatedItem) : item));
```

When `current` is null, lodash `assign` converts it with `Object(null)` to a
fresh object whose mutation is discarded, so `current` stays null. -/
def editItem {α : Type} (s : StoreState α) (updatedItem : Entity) (setCur : Bool) : StoreState α :=
  let s1 :=
    if setCur || currentIdMatches s updatedItem.id then
      match s.current with
      | some c => setCurrent s (some (assignEntity c updatedItem))
      | none => s
    else s
  { s1 with collection :=
      s1.collection.map (fun item =>
        if item.id == updatedItem.id then assignEntity item updatedItem else item) }

/-! ### ApiStore's call wrapper -/

/-- Observable outcome of one `apiCall` invocation: the value returned or
error thrown, the final store state, every `setIsLoading` call in order, and
how many times a client endpoint was actually invoked. -/
structure ApiCallOutcome (α : Type) where
  result : Except ErrVal (Option α)
  state : StoreState α
  loadingEvents : List Bool
  endpointInvocations : Nat
deriving DecidableEq, Repr

/-- src/stores/ApiStore.ts `apiCall` (also named `_apiCall` in an earlier
revision; both have identical bodies):

```
try {
  if (!this.api) throw new Error(`${this.name} Api is not set`);
  this.setIsLoading(true);
  return await callApi<Api, Endpoint, Args>(apiCall, args, this.api);
} finally {
  this.setIsLoading(false);
}
```

When `api` is null the error is thrown before `setIsLoading(true)`, yet the
`finally` block still runs `setIsLoading(false)`. -/
def apiCall {α : Type} (s : StoreState α) (endpointName : String) : ApiCallOutcome α :=
  match s.api with
  | none =>
    { result := .error (.errObj (s.name ++ " Api is not set"))
      state := { s with isLoading := false }
      loadingEvents := [false]
      endpointInvocations := 0 }
  | some api =>
    let r := callApi endpointName (some api)
    { result := r.1
      state := { s with isLoading := false }
      loadingEvents := [true, false]
      endpointInvocations := r.2 }

/-! ### CrudCollectionStore CRUD flows (current revision, the JSDoc'd
`CrudCollectionStore` whose `_fetchAll` checks `this.collection.length > 0`
and warns when the endpoint yields nothing) -/

/-- Observable outcome of `_fetchAll`. `warned` records whether the
`console.warn` diagnostic fired. -/
structure FetchAllOutcome where
  result : Except ErrVal (Option (List Entity))
  state : StoreState (List Entity)
  endpointInvocations : Nat
  warned : Bool
deriving DecidableEq, Repr

/-- CrudCollectionStore `_fetchAll(endpoint, args, { useCache = false })`:

```
let items: TCollection | undefined;
if (useCache && this.collection.length > 0) {
  items = await new Promise((resolve) => resolve(this.collection));
}
if (!useCache || !items) {
  items = (await this.apiCall<TApi>(endpoint, args)) as unknown as TCollection | undefined;
  if (items) {
    this.setCollection(items);
  } else {
    this.setCollection([] as unknown as TCollection);
    console.warn(`[${this.name}] API call returned null/undefined for collection`);
  }
}
return items;
```

When `items` was taken from the cache it is a non-empty array, hence truthy,
so the fetch branch runs exactly when `!useCache || items === undefined`.
An error thrown by `apiCall` propagates out of the flow. -/
def _fetchAll (s : StoreState (List Entity)) (endpoint : String) (useCache : Bool) :
    FetchAllOutcome :=
  let items0 : Option (List Entity) :=
    if useCache && decide (0 < s.collection.length) then some s.collection else none
  if !useCache || items0.isNone then
    let c := apiCall s endpoint
    match c.result with
    | .error e =>
      { result := .error e, state := c.state
        endpointInvocations := c.endpointInvocations, warned := false }
    | .ok (some items) =>
      { result := .ok (some items), state := setCollection c.state items
        endpointInvocations := c.endpointInvocations, warned := false }
    | .ok none =>
      { result := .ok none, state := setCollection c.state []
        endpointInvocations := c.endpointInvocations, warned := true }
  else
    { result := .ok items0, state := s, endpointInvocations := 0, warned := false }

/-- Observable outcome of `_create`. -/
structure CreateOutcome where
  result : Except ErrVal Entity
  state : StoreState Entity
  endpointInvocations : Nat
deriving DecidableEq, Repr

/-- CrudCollectionStore `_create(endpoint, args)`:

```
const item = await this.apiCall<TApi>(endpoint, args);
if (item) {
  this.addItem(item as TSingle);
} else {
  throw new Error('Create Endpoint did not return an item');
}
return item;
```

`addItem` is called with its default `setCurrent = true`. -/
def _create (s : StoreState Entity) (endpoint : String) : CreateOutcome :=
  let c := apiCall s endpoint
  match c.result with
  | .error e =>
    { result := .error e, state := c.state
      endpointInvocations := c.endpointInvocations }
  | .ok (some item) =>
    { result := .ok item, state := addItem c.state item true
      endpointInvocations := c.endpointInvocations }
  | .ok none =>
    { result := .error (.errObj "Create Endpoint did not return an item")
      state := c.state, endpointInvocations := c.endpointInvocations }

/-! ### ObjectStore (src/stores/ObjectStore.ts) -/

/-- A keyed entry of the observable object: a single entity or an array. -/
inductive Entry where
  | single (e : Entity)
  | coll (items : List Entity)
deriving DecidableEq, Repr

/-- `Array.isArray(entry)`. -/
def Entry.isArray : Entry → Bool
  | .coll _ => true
  | .single _ => false

/-- `entry.some((item) => item.id === itemId)`.  In the source this expression
raises a TypeError on a non-array entry; that is reachable only in maps mixing
array and single entries, which the homogeneity hypotheses of the theorems
below exclude, so a single entry is modelled as containing nothing. -/
def Entry.containsItem : Entry → EntityId → Bool
  | .coll items, itemId => items.any (fun item => item.id == itemId)
  | .single _, _ => false

/-- The state of an ObjectStore: the SingleStore layers plus the keyed
observable object, whose keys are strings (MobX `set(obj, String(id), item)`)
in insertion order. -/
structure ObjStoreState (α : Type) where
  name : String
  isLoading : Bool
  api : Option (Api α)
  current : Option Entity
  object : List (String × Entry)
deriving DecidableEq, Repr

/-- `new ObjectStore(name)`: calls `super(name)`, `_object` starts empty. -/
def objectStoreNew (α : Type) (name : String) : ObjStoreState α :=
  { name := name, isLoading := true, api := none, current := none, object := [] }

/-- ObjectStore `getEntryIdByItemId(itemId)`:

```
const e = entries(this._object);
if (e.length > 0 && Array.isArray(e[0][1])) {
  const foundEntry = e.find(([, entryValue]) =>
    entryValue.some((item) => item.id === itemId));
  if (foundEntry) return foundEntry[0] as keyof TObject;
}
return undefined;
```
-/
def getEntryIdByItemId {α : Type} (s : ObjStoreState α) (itemId : EntityId) : Option String :=
  match s.object with
  | [] => none
  | (_, e0) :: _ =>
    if e0.isArray then
      (s.object.find? (fun p => p.2.containsItem itemId)).map (·.1)
    else none

/-! ### Helper lemmas -/

/-- A linear scan returns the element after a prefix of non-matches. -/
theorem find?_of_prefix_nomatch {β : Type} (p : β → Bool) (pre post : List β) (b : β)
    (hpre : ∀ x ∈ pre, p x = false) (hb : p b = true) :
    (pre ++ b :: post).find? p = some b := by
  induction pre with
  | nil => simpa using List.find?_cons_of_pos post hb
  | cons a l ih =>
    have ha : p a = false := hpre a (by simp)
    show List.find? p (a :: (l ++ b :: post)) = some b
    rw [List.find?_cons_of_neg]
    · exact ih (fun x hx => hpre x (by simp [hx]))
    · simp [ha]

/-- Reading a key from a cons cell of an association list. -/
theorem getField_cons (a : String × String) (l : List (String × String)) (f : String) :
    getField (a :: l) f = if a.1 == f then some a.2 else getField l f := by
  unfold getField
  cases h : (a.1 == f) with
  | false =>
    rw [List.find?_cons_of_neg]
    · simp [h]
    · simp [h]
  | true =>
    rw [List.find?_cons_of_pos]
    · simp [h]
    · exact h

/-- Reading a key after an append: the left list wins. -/
theorem getField_append (l1 l2 : List (String × String)) (f : String) :
    getField (l1 ++ l2) f = (getField l1 f).or (getField l2 f) := by
  induction l1 with
  | nil => simp [getField]
  | cons a l ih =>
    show getField (a :: (l ++ l2)) f = _
    rw [getField_cons, getField_cons]
    by_cases h : a.1 == f
    · simp [h, Option.or]
    · simp [h, ih]

/-- Reading a key from the target side of an assign: positions are kept,
values of keys also present in `u` are overwritten. -/
theorem getField_map_assign (t u : List (String × String)) (f : String) :
    getField (t.map fun p => (p.1, (getField u p.1).getD p.2)) f
      = (getField t f).map (fun v => (getField u f).getD v) := by
  induction t with
  | nil => simp [getField]
  | cons a l ih =>
    simp only [List.map_cons]
    rw [getField_cons, getField_cons]
    by_cases h : a.1 == f
    · have hf : a.1 = f := by simpa using h
      simp [h, hf]
    · simp [h, ih]

/-- Reading a key from the appended source side of an assign: only keys not
already present in the target survive the filter. -/
theorem getField_filter_isNone (t u : List (String × String)) (f : String) :
    getField (u.filter fun p => (getField t p.1).isNone) f
      = if (getField t f).isNone then getField u f else none := by
  induction u with
  | nil => simp [getField]
  | cons b m ih =>
    by_cases h : b.1 == f
    · have hf : b.1 = f := by simpa using h
      cases hb : (getField t f).isNone with
      | true =>
        have hkeep : (getField t b.1).isNone = true := by rw [hf]; exact hb
        simp only [List.filter_cons, hkeep, if_true]
        rw [getField_cons]
        simp [getField_cons, h, hb]
      | false =>
        have hdrop : (getField t b.1).isNone = false := by rw [hf]; exact hb
        simp only [List.filter_cons, hdrop]
        simp only [Bool.false_eq_true, if_false]
        rw [ih]
        simp [hb]
    · cases hb : (getField t b.1).isNone with
      | true =>
        simp only [List.filter_cons, hb, if_true]
        rw [getField_cons]
        simp only [h, Bool.false_eq_true, if_false]
        rw [ih, getField_cons]
        simp [h]
      | false =>
        simp only [List.filter_cons, hb]
        simp only [Bool.false_eq_true, if_false]
        rw [ih, getField_cons]
        simp [h]

/-- Shallow-merge law for lodash `assign` on association lists: a key reads
as the source's value when the source carries it, else the target's. -/
theorem getField_assignFields (t u : List (String × String)) (f : String) :
    getField (assignFields t u) f = (getField u f).or (getField t f) := by
  unfold assignFields
  rw [getField_append, getField_map_assign, getField_filter_isNone]
  cases ht : getField t f with
  | none => cases hu : getField u f <;> simp [Option.or]
  | some v => cases hu : getField u f <;> simp [Option.or]

/-- When no value of `current` carries id `i`, the current-first test fails. -/
theorem currentIdMatches_eq_false {α : Type} (s : StoreState α) (i : EntityId)
    (hcur : ∀ c, s.current = some c → c.id ≠ i) :
    currentIdMatches s i = false := by
  unfold currentIdMatches
  cases hc : s.current with
  | none => rfl
  | some c => simpa using hcur c hc

/-! ### Claim theorems -/

/-- C1: `getById(i)` returns `current` whenever `current` is non-null and its
id equals `i` (even when the collection also holds a possibly
different-valued element with id `i`); otherwise it returns the first
collection element whose id equals `i`; and when neither exists it returns
undefined (`none`). -/
theorem getById_spec (α : Type) (s : StoreState α) (i : EntityId) :
    (∀ c, s.current = some c → c.id = i → getById s i = some c) ∧
    ((∀ c, s.current = some c → c.id ≠ i) →
      ∀ pre e post, s.collection = pre ++ e :: post → e.id = i →
        (∀ x ∈ pre, x.id ≠ i) → getById s i = some e) ∧
    ((∀ c, s.current = some c → c.id ≠ i) →
      (∀ x ∈ s.collection, x.id ≠ i) → getById s i = none) := by
  refine ⟨?_, ?_, ?_⟩
  · intro c hc hid
    simp [getById, currentIdMatches, hc, hid]
  · intro hcur pre e post hcoll hid hpre
    simp only [getById, currentIdMatches_eq_false s i hcur, Bool.false_eq_true, if_false]
    rw [hcoll]
    exact find?_of_prefix_nomatch _ pre post e
      (fun x hx => by simpa using hpre x hx) (by simp [hid])
  · intro hcur hall
    simp only [getById, currentIdMatches_eq_false s i hcur, Bool.false_eq_true, if_false]
    exact List.find?_eq_none.mpr (fun x hx => by simpa using hall x hx)

def c1current : Entity := { id := .str "X", fields := [("name", "fresh")] }

def c1collItem : Entity := { id := .str "X", fields := [("name", "stale")] }

def c1state : StoreState Unit :=
  { name := "S", isLoading := false, api := none,
    current := some c1current, collection := [c1collItem] }

/-- C1 witness: the stale collection element with id X is shadowed by the
different-valued `current` with id X, and a missing id yields `none`. -/
theorem getById_spec_witness :
    getById c1state (EntityId.str "X") = some c1current ∧
    getById c1state (EntityId.str "Y") = none := by
  constructor
  · exact (getById_spec Unit c1state (EntityId.str "X")).1 c1current rfl rfl
  · refine (getById_spec Unit c1state (EntityId.str "Y")).2.2 ?_ (by decide)
    intro c hc
    rw [show c1state.current = some c1current from rfl] at hc
    cases hc
    decide

def entvA : Entity := { id := .num 1, fields := [("name", "A")] }

def entvB : Entity := { id := .num 1, fields := [("name", "B")] }

def c2state : StoreState Unit :=
  { name := "S", isLoading := false, api := none, current := none,
    collection := [entvA, entvB] }

/-- C2 counterexample: with two elements of id 1 in the collection,
`removeItem(1)` (lodash `remove`) deletes both, so the later duplicate does
not stay in place as the claim states. -/
theorem removeItem_counterexample :
    (removeItem c2state (EntityId.num 1)).collection = [] ∧
    ¬ (removeItem c2state (EntityId.num 1)).collection = [entvB] := by
  constructor <;> decide

/-- C2 (amended): `removeItem(i)` removes every collection element whose id
equals `i` (not only the first); it clears `current` to null when `current`
is non-null with id `i`, and leaves `current` unchanged otherwise. -/
theorem removeItem_spec (α : Type) (s : StoreState α) (i : EntityId) :
    (∀ e, e ∈ (removeItem s i).collection ↔ e ∈ s.collection ∧ e.id ≠ i) ∧
    (∀ c, s.current = some c → c.id = i → (removeItem s i).current = none) ∧
    (∀ c, s.current = some c → c.id ≠ i → (removeItem s i).current = some c) ∧
    (s.current = none → (removeItem s i).current = none) := by
  refine ⟨?_, ?_, ?_, ?_⟩
  · intro e
    by_cases h : currentIdMatches s i <;>
      simp [removeItem, setCurrent, h]
  · intro c hc hid
    have hm : currentIdMatches s i = true := by
      simp [currentIdMatches, hc, hid]
    simp [removeItem, setCurrent, hm]
  · intro c hc hid
    have hm : currentIdMatches s i = false := by
      unfold currentIdMatches
      rw [hc]
      simpa using hid
    simp [removeItem, setCurrent, hm, hc]
  · intro hc
    have hm : currentIdMatches s i = false := by
      simp [currentIdMatches, hc]
    simp [removeItem, setCurrent, hm, hc]

def c2current : Entity := { id := .num 2, fields := [("name", "kept")] }

def c2wstate : StoreState Unit :=
  { name := "S", isLoading := false, api := none,
    current := some c2current, collection := [entvA, entvB, c2current] }

/-- C2 witness: removal of id 1 keeps only the id-2 element and leaves the
non-matching `current` untouched. -/
theorem removeItem_spec_witness :
    (entvA ∈ (removeItem c2wstate (EntityId.num 1)).collection ↔
      entvA ∈ c2wstate.collection ∧ entvA.id ≠ EntityId.num 1) ∧
    (removeItem c2wstate (EntityId.num 1)).current = some c2current := by
  constructor
  · exact (removeItem_spec Unit c2wstate (EntityId.num 1)).1 entvA
  · exact (removeItem_spec Unit c2wstate (EntityId.num 1)).2.2.1 c2current rfl (by decide)

/-- C4: `editItem(e)` shallow-merges `e` onto every collection element whose
id equals `e.id` (positions preserved, element for element): the merged
element reads `e`'s value for each field present on `e` and its previous
value for every other field.  (Elements whose id differs are only guaranteed
untouched when they are not aliased by `current`; the claim is silent on
them, so only the merge law is stated.) -/
theorem editItem_merge_spec (α : Type) (s : StoreState α) (u : Entity) (sc : Bool) :
    List.Forall₂ (fun old new =>
      old.id = u.id → new.id = u.id ∧
        ∀ f, getField new.fields f = (getField u.fields f).or (getField old.fields f))
      s.collection (editItem s u sc).collection := by
  have hcoll : (editItem s u sc).collection
      = s.collection.map (fun item =>
          if item.id == u.id then assignEntity item u else item) := by
    unfold editItem
    by_cases h : (sc || currentIdMatches s u.id) = true
    · cases hc : s.current <;> simp [h, hc, setCurrent]
    · simp [h]
  rw [hcoll]
  refine List.forall₂_map_right_iff.mpr (List.forall₂_same.mpr ?_)
  intro e _ hid
  simp only [show (e.id == u.id) = true by simpa using hid, if_true]
  exact ⟨rfl, fun f => getField_assignFields e.fields u.fields f⟩

def c4old : Entity := { id := .num 7, fields := [("name", "old"), ("city", "keep")] }

def c4upd : Entity := { id := .num 7, fields := [("name", "new")] }

def c4state : StoreState Unit :=
  { name := "S", isLoading := false, api := none, current := none,
    collection := [c4old, { id := .num 8, fields := [("name", "other")] }] }

/-- C4 witness: the shallow-merge law instantiated at a concrete collection,
together with the evaluated result: `name` is overwritten, `city` survives,
the id-8 element is untouched. -/
theorem editItem_merge_spec_witness :
    ((editItem c4state c4upd true).collection
      = [{ id := .num 7, fields := [("name", "new"), ("city", "keep")] },
         { id := .num 8, fields := [("name", "other")] }]) ∧
    List.Forall₂ (fun old new =>
      old.id = c4upd.id → new.id = c4upd.id ∧
        ∀ f, getField new.fields f
          = (getField c4upd.fields f).or (getField old.fields f))
      c4state.collection (editItem c4state c4upd true).collection :=
  ⟨by decide, editItem_merge_spec Unit c4state c4upd true⟩

/-- C5: every execution of the call wrapper ends with `isLoading = false`:
the final state is not loading and the last `setIsLoading` event on every
path (success, missing client, endpoint failure) is `false`; and around one
successful call started from an idle store the flag shows the transitions
false → true → false. -/
theorem apiCall_loading_spec (α : Type) (s : StoreState α) (endpointName : String) :
    ((apiCall s endpointName).state.isLoading = false) ∧
    ((apiCall s endpointName).loadingEvents.getLast? = some false) ∧
    (∀ v, s.isLoading = false → (apiCall s endpointName).result = .ok v →
      s.isLoading :: (apiCall s endpointName).loadingEvents = [false, true, false]) := by
  cases h : s.api with
  | none =>
    refine ⟨by simp [apiCall, h], by simp [apiCall, h], ?_⟩
    intro v h0 hr
    simp [apiCall, h] at hr
  | some a =>
    refine ⟨by simp [apiCall, h], by simp [apiCall, h], ?_⟩
    intro v h0 hr
    simp [apiCall, h, h0]

def c5api : Api Entity := [("getThing", .resolves (some entvA))]

def c5state : StoreState Entity :=
  { name := "S", isLoading := false, api := some c5api,
    current := none, collection := [] }

/-- C5 witness: a successful call on an idle store with a bound endpoint
shows the transition sequence false → true → false and ends not loading. -/
theorem apiCall_loading_spec_witness :
    (apiCall c5state "getThing").state.isLoading = false ∧
    c5state.isLoading :: (apiCall c5state "getThing").loadingEvents
      = [false, true, false] := by
  constructor
  · exact (apiCall_loading_spec Entity c5state "getThing").1
  · exact (apiCall_loading_spec Entity c5state "getThing").2.2
      (some entvA) rfl (by decide)

/-- C6: with no API client set, the call wrapper fails with the
configuration error naming the store and invokes no endpoint. -/
theorem apiCall_apiNotSet_spec (α : Type) (s : StoreState α) (endpointName : String)
    (h : s.api = none) :
    (apiCall s endpointName).result
      = .error (.errObj (s.name ++ " Api is not set")) ∧
    (apiCall s endpointName).endpointInvocations = 0 := by
  simp [apiCall, h]

def c6state : StoreState Unit :=
  { name := "UserStore", isLoading := true, api := none,
    current := none, collection := [] }

/-- C6 witness: a store without a client rejects with its configuration
error and its stub endpoint counter stays at zero. -/
theorem apiCall_apiNotSet_spec_witness :
    (apiCall c6state "getUser").result
      = .error (.errObj (c6state.name ++ " Api is not set")) ∧
    (apiCall c6state "getUser").endpointInvocations = 0 :=
  apiCall_apiNotSet_spec Unit c6state "getUser" rfl

/-- C7: when the endpoint bound by `_create` resolves with no item, the call
fails with the "did not return an item" error and both the collection and
`current` are unchanged; when it resolves an item, that item is appended via
`addItem` and returned. -/
theorem create_spec (s : StoreState Entity) (endpoint : String) (a : Api Entity)
    (ha : s.api = some a) :
    (lookupEndpoint a endpoint = some (.resolves none) →
      (_create s endpoint).result
        = .error (.errObj "Create Endpoint did not return an item") ∧
      (_create s endpoint).state.collection = s.collection ∧
      (_create s endpoint).state.current = s.current) ∧
    (∀ item, lookupEndpoint a endpoint = some (.resolves (some item)) →
      (_create s endpoint).result = .ok item ∧
      (_create s endpoint).state.collection = s.collection ++ [item]) := by
  constructor
  · intro hep
    simp [_create, apiCall, callApi, ha, hep]
  · intro item hep
    simp [_create, apiCall, callApi, ha, hep, addItem, setCurrent]

def c7state : StoreState Entity :=
  { name := "ThingStore", isLoading := false,
    api := some [("makeThing", .resolves none)],
    current := none, collection := [entvA] }

def c7okstate : StoreState Entity :=
  { name := "ThingStore", isLoading := false,
    api := some [("makeThing", .resolves (some c2current))],
    current := none, collection := [entvA] }

/-- C7 witness: a stub create endpoint resolving undefined makes `_create`
fail and leaves the collection untouched; a resolving one appends its item. -/
theorem create_spec_witness :
    ((_create c7state "makeThing").result
      = .error (.errObj "Create Endpoint did not return an item") ∧
     (_create c7state "makeThing").state.collection = c7state.collection) ∧
    ((_create c7okstate "makeThing").result = .ok c2current ∧
     (_create c7okstate "makeThing").state.collection
       = c7okstate.collection ++ [c2current]) := by
  constructor
  · refine ⟨?_, ?_⟩
    · exact ((create_spec c7state "makeThing" _ rfl).1 (by decide)).1
    · exact ((create_spec c7state "makeThing" _ rfl).1 (by decide)).2.1
  · exact (create_spec c7okstate "makeThing" _ rfl).2 c2current (by decide)

/-- C3: `_fetchAll` with `useCache` on a non-empty collection returns the
cached collection with zero endpoint invocations and an unchanged store; in
every other case (`useCache` false, or the collection empty) it invokes the
endpoint, replacing the whole collection via `setCollection` on success; and
when the endpoint yields no items the collection is reset to empty with the
diagnostic warning and no error is raised. -/
theorem fetchAll_spec (s : StoreState (List Entity)) (endpoint : String) :
    (s.collection ≠ [] →
      _fetchAll s endpoint true
        = { result := .ok (some s.collection), state := s,
            endpointInvocations := 0, warned := false }) ∧
    (∀ (useCache : Bool) (a : Api (List Entity)) (l : List Entity),
      (useCache = false ∨ s.collection = []) →
      s.api = some a →
      lookupEndpoint a endpoint = some (.resolves (some l)) →
      (_fetchAll s endpoint useCache).endpointInvocations = 1 ∧
      (_fetchAll s endpoint useCache).state.collection = l ∧
      (_fetchAll s endpoint useCache).result = .ok (some l) ∧
      (_fetchAll s endpoint useCache).warned = false) ∧
    (∀ (useCache : Bool) (a : Api (List Entity)),
      (useCache = false ∨ s.collection = []) →
      s.api = some a →
      lookupEndpoint a endpoint = some (.resolves none) →
      (_fetchAll s endpoint useCache).endpointInvocations = 1 ∧
      (_fetchAll s endpoint useCache).state.collection = [] ∧
      (_fetchAll s endpoint useCache).warned = true ∧
      (_fetchAll s endpoint useCache).result = .ok none) := by
  have hmiss : ∀ (u : Bool), (u = false ∨ s.collection = []) →
      (!u || (if u && decide (0 < s.collection.length)
               then some s.collection else none).isNone) = true := by
    intro u hu
    rcases hu with hu | hu
    · subst hu; rfl
    · cases u <;> simp [hu]
  refine ⟨?_, ?_, ?_⟩
  · intro hne
    have hlen : decide (0 < s.collection.length) = true := by
      simpa using List.length_pos.mpr hne
    simp [_fetchAll, hlen]
  · intro useCache a l hu ha hep
    simp only [_fetchAll, hmiss useCache hu]
    simp [apiCall, callApi, ha, hep, setCollection]
  · intro useCache a hu ha hep
    simp only [_fetchAll, hmiss useCache hu]
    simp [apiCall, callApi, ha, hep, setCollection]

def c3cachedState : StoreState (List Entity) :=
  { name := "ListStore", isLoading := false,
    api := some [("findAll", .resolves (some [c2current]))],
    current := none, collection := [entvA] }

def c3emptyState : StoreState (List Entity) :=
  { name := "ListStore", isLoading := false,
    api := some [("findAll", .resolves (some [c2current]))],
    current := none, collection := [] }

def c3noneState : StoreState (List Entity) :=
  { name := "ListStore", isLoading := false,
    api := some [("findAll", .resolves none)],
    current := none, collection := [entvA] }

/-- C3 witness: a cached non-empty collection is served without invoking the
stub endpoint; an empty collection triggers one invocation that replaces the
collection; an endpoint yielding nothing resets it to empty with a warning. -/
theorem fetchAll_spec_witness :
    (_fetchAll c3cachedState "findAll" true
      = { result := .ok (some c3cachedState.collection), state := c3cachedState,
          endpointInvocations := 0, warned := false }) ∧
    ((_fetchAll c3emptyState "findAll" true).endpointInvocations = 1 ∧
     (_fetchAll c3emptyState "findAll" true).state.collection = [c2current]) ∧
    ((_fetchAll c3noneState "findAll" false).state.collection = [] ∧
     (_fetchAll c3noneState "findAll" false).warned = true ∧
     (_fetchAll c3noneState "findAll" false).result = .ok none) := by
  refine ⟨?_, ?_, ?_⟩
  · exact (fetchAll_spec c3cachedState "findAll").1 (by decide)
  · have h := (fetchAll_spec c3emptyState "findAll").2.1 true _ [c2current]
      (Or.inr rfl) rfl (by decide)
    exact ⟨h.1, h.2.1⟩
  · have h := (fetchAll_spec c3noneState "findAll").2.2 false _
      (Or.inl rfl) rfl (by decide)
    exact ⟨h.2.1, h.2.2.1, h.2.2.2⟩

/-- C8 (code bug): evaluating `getErrorMessage` at the claim's inputs. For
null and undefined the source raises a TypeError (the `in` operator is
applied to a non-object before the falsy check can return the default
message, leaving that branch unreachable); for an object exposing a response
body it returns the stringified `message` field, for an `Error` its
`.message`, and for another truthy object its stringification. -/
theorem getErrorMessage_eval :
    getErrorMessage ErrVal.nullv "Unbekannter Fehler"
      = .error (.errObj "Cannot use 'in' operator to search for 'response' in error") ∧
    getErrorMessage ErrVal.undef "Unbekannter Fehler"
      = .error (.errObj "Cannot use 'in' operator to search for 'response' in error") ∧
    getErrorMessage (ErrVal.errObj "boom") "Unbekannter Fehler" = .ok "boom" ∧
    getErrorMessage (ErrVal.respObj "kaputt") "Unbekannter Fehler"
      = .ok (jsonStringifyString "kaputt") ∧
    getErrorMessage (ErrVal.plainObj "obj") "Unbekannter Fehler" = .ok "obj" := by
  refine ⟨by decide, by decide, by decide, by decide, by decide⟩

/-- C9 counterexample: a freshly constructed `LoadingStore` has
`isLoading = false` (field initializer `_isLoading = false`; its constructor
does not touch the flag), contradicting the claimed initial `true`. -/
theorem loadingStore_initial_counterexample :
    ¬ loadingStoreNew.isLoading = true := by decide

/-- C9 (amended): `LoadingStore` itself constructs with `isLoading = false`;
`ApiStore` runs `setIsLoading(true)` in its constructor, so it and every
store layered on it construct with `isLoading = true`. -/
theorem store_initial_loading (α : Type) (nm : String) :
    loadingStoreNew.isLoading = false ∧
    (apiStoreNew α nm).isLoading = true ∧
    (singleStoreNew α nm).isLoading = true ∧
    (collectionStoreNew α nm).isLoading = true ∧
    (crudCollectionStoreNew α nm).isLoading = true ∧
    (objectStoreNew α nm).isLoading = true :=
  ⟨rfl, rfl, rfl, rfl, rfl, rfl⟩

/-- C9 witness: the amended construction states at a concrete store name. -/
theorem store_initial_loading_witness :
    loadingStoreNew.isLoading = false ∧
    (apiStoreNew Unit "TaskStore").isLoading = true ∧
    (singleStoreNew Unit "TaskStore").isLoading = true ∧
    (collectionStoreNew Unit "TaskStore").isLoading = true ∧
    (crudCollectionStoreNew Unit "TaskStore").isLoading = true ∧
    (objectStoreNew Unit "TaskStore").isLoading = true :=
  store_initial_loading Unit "TaskStore"

/-- C10: when every entry of the map is an array, `getEntryIdByItemId`
returns the key of the first entry whose array contains an element with the
given id, and `none` when no entry's array contains one; when the map is in
single-entity mode the search is a no-op returning `none`. -/
theorem getEntryIdByItemId_spec (α : Type) (s : ObjStoreState α) (itemId : EntityId) :
    ((∀ p ∈ s.object, p.2.isArray = true) →
      (∀ pre k items post,
        s.object = pre ++ (k, Entry.coll items) :: post →
        (∀ q ∈ pre, q.2.containsItem itemId = false) →
        (∃ e ∈ items, e.id = itemId) →
        getEntryIdByItemId s itemId = some k) ∧
      ((∀ p ∈ s.object, p.2.containsItem itemId = false) →
        getEntryIdByItemId s itemId = none)) ∧
    ((∀ p ∈ s.object, p.2.isArray = false) →
      getEntryIdByItemId s itemId = none) := by
  refine ⟨fun harr => ⟨?_, ?_⟩, ?_⟩
  · intro pre k items post hobj hpre hex
    have hfind : s.object.find? (fun p => p.2.containsItem itemId)
        = some (k, Entry.coll items) := by
      rw [hobj]
      refine find?_of_prefix_nomatch _ pre post (k, Entry.coll items)
        (fun x hx => hpre x hx) ?_
      show (Entry.coll items).containsItem itemId = true
      simp only [Entry.containsItem, List.any_eq_true]
      obtain ⟨e, he, hid⟩ := hex
      exact ⟨e, he, by simp [hid]⟩
    obtain ⟨p0, rest, ho⟩ : ∃ a rest, s.object = a :: rest := by
      cases hp : s.object with
      | nil => rw [hp] at hobj; cases pre <;> simp at hobj
      | cons x xs => exact ⟨x, xs, rfl⟩
    obtain ⟨p01, p02⟩ := p0
    have h0 : p02.isArray = true :=
      harr (p01, p02) (by rw [ho]; exact List.mem_cons_self _ _)
    rw [ho] at hfind
    simp [getEntryIdByItemId, ho, h0, hfind]
  · intro hnone
    unfold getEntryIdByItemId
    cases ho : s.object with
    | nil => rfl
    | cons p0 rest =>
      obtain ⟨p01, p02⟩ := p0
      have hfind : ((p01, p02) :: rest).find? (fun p => p.2.containsItem itemId)
          = none :=
        List.find?_eq_none.mpr
          (fun x hx => by simp [hnone x (by rw [ho]; exact hx)])
      by_cases h0 : p02.isArray = true
      · simp [h0, hfind]
      · simp [h0]
  · intro hsingle
    unfold getEntryIdByItemId
    cases ho : s.object with
    | nil => rfl
    | cons p0 rest =>
      have h0 : p0.2.isArray = false :=
        hsingle p0 (by rw [ho]; exact List.mem_cons_self _ _)
      obtain ⟨p01, p02⟩ := p0
      simp [h0]

def c10state : ObjStoreState Unit :=
  { name := "GroupStore", isLoading := false, api := none, current := none,
    object := [("g1", .coll [{ id := .num 1, fields := [] },
                             { id := .num 2, fields := [] }])] }

/-- C10 witness: the claim's scenario, entry g1 holding ids 1 and 2: id 2
resolves to key g1 and id 99 is not found. -/
theorem getEntryIdByItemId_spec_witness :
    getEntryIdByItemId c10state (EntityId.num 2) = some "g1" ∧
    getEntryIdByItemId c10state (EntityId.num 99) = none := by
  constructor
  · exact ((getEntryIdByItemId_spec Unit c10state (EntityId.num 2)).1 (by decide)).1
      [] "g1" [{ id := .num 1, fields := [] }, { id := .num 2, fields := [] }] []
      rfl (by simp) (by decide)
  · exact ((getEntryIdByItemId_spec Unit c10state (EntityId.num 99)).1 (by decide)).2
      (by decide)

end MobxStores
